import Mathlib

/-!
Shallow embedding of the Return&Reward application core
(source: src/ReturnAndReward/src/App.jsx).

The application is a React/Firebase lost-and-found app.  The embedding
below translates the pure logic of the handlers and derived views:

* chat identifiers and chat-thread upsert (getChatDocId, handleStartChat);
* the item registry and its two store writes (item creation and the
  status merge-write issued by the return-confirmation dialog);
* the derived, sorted "my items" list (the filter + comparator at
  App.jsx lines 1014-1019);
* scan resolution (handleScanResult) together with the trim/submit
  logic of ScanView and the error-catching point read fetchProfileByUid;
* the message-subscription effect keyed on the selected chat id, and
  the confirmation gate around marking an item returned.

Firestore documents are modelled as association lists or as functions
from document id to an optional record; serverTimestamp values are
modelled as natural-number seconds, with `Option Nat` for a createdAt
field that a snapshot has not yet resolved (the snapshot delivers null
until the server assigns the time, and the comparator reads
`createdAt?.seconds || 0`).
-/

namespace RR

/-- Item status.  The program only ever writes the strings "missing"
(at creation, App.jsx line 877) and "returned" (confirmation write,
line 981), so the field is embedded as a two-value enumeration. -/
inductive ItemStatus where
  | missing
  | returned
deriving DecidableEq

/-- An item document, as created by handleAddItem (App.jsx 873-879) and
read back by the items snapshot listener.  `createdAt` is `none` while
the server-assigned timestamp is still pending in a local snapshot. -/
structure Item where
  itemName : String
  description : String
  ownerId : String
  status : ItemStatus
  createdAt : Option Nat
deriving DecidableEq

/-- A public user-profile document (name, photo, email, uid), as written
by handleProfileSetup and read by the users listener. -/
structure Profile where
  uid : String
  name : String
  email : String
  photoURL : String
deriving DecidableEq

/-- The view strings of the navigation state: login, profile-setup,
dashboard, add-item, item-qr, scan, user-profile, chat. -/
inductive AppView where
  | login
  | profileSetup
  | dashboard
  | addItemView
  | itemQR
  | scanView
  | userProfile
  | chat
deriving DecidableEq

/-- A chat-thread document.  handleStartChat (App.jsx 932-936) writes
exactly the fields participants, itemId and lastMessageAt. -/
structure Chat where
  participants : List String
  itemId : String
  lastMessageAt : Nat
deriving DecidableEq

/-- The chat collection, document id to document. -/
def ChatStore : Type := String → Option Chat

/-- The sortedUids array of getChatDocId (App.jsx line 99): the
two-element array sorted by the default lexicographic string
comparator. -/
def sortedUids (uid1 uid2 : String) : List String :=
  if uid1 ≤ uid2 then [uid1, uid2] else [uid2, uid1]

/-- getChatDocId (App.jsx 98-101): sorted pair joined with an
underscore. -/
def getChatDocId (uid1 uid2 : String) : String :=
  String.intercalate "_" (sortedUids uid1 uid2)

/-- The store effect of handleStartChat (App.jsx 923-947): a setDoc
with the merge option at the deterministic chat id.  The write carries
every field a chat document ever has, so the merge replaces those
fields and creates the document when absent; it is never a blind
insert at a store-generated fresh id. -/
def handleStartChat (userId otherUserId itemDocId : String) (now : Nat)
    (chats : ChatStore) : ChatStore :=
  let chatId := getChatDocId userId otherUserId
  fun k =>
    if k = chatId then
      some { participants := sortedUids userId otherUserId
             itemId := itemDocId
             lastMessageAt := now }
    else chats k

/-- Firestore setDoc at a known document id with the merge option, over
the items collection embedded as an association list in snapshot
order: the binding is rewritten in place when the id is present and
appended when absent. -/
def upsertWith (m : List (String × Item)) (k : String)
    (f : Option Item → Item) : List (String × Item) :=
  match m with
  | [] => [(k, f none)]
  | (k0, v0) :: rest =>
      if k0 = k then (k0, f (some v0)) :: rest
      else (k0, v0) :: upsertWith rest k f

/-- The only two writes the program ever issues against the items
collection: the addDoc of handleAddItem (App.jsx 881) and the
confirmation write of handleMarkReturned (App.jsx 981). -/
inductive RegistryOp where
  | addItem (newId itemName description ownerId : String) (ts : Nat)
  | markReturned (itemId : String)

/-- Effect of a registry write.  addItem stores a new document with
status missing (App.jsx 877) and the server-resolved creation time at
the store-generated id.  markReturned is a merge write of status
returned only; per merge semantics an absent target would be created
holding just that field (embedded with empty remaining fields). -/
def RegistryOp.apply : RegistryOp → List (String × Item) → List (String × Item)
  | .addItem newId n d o ts, m => (newId, ⟨n, d, o, .missing, some ts⟩) :: m
  | .markReturned itemId, m =>
      upsertWith m itemId fun old =>
        match old with
        | some it => { it with status := .returned }
        | none => ⟨"", "", "", .returned, none⟩

/-- addDoc generates a fresh document id, so it never lands on an
existing document; markReturned has no side condition. -/
def RegistryOp.freshFor : RegistryOp → List (String × Item) → Prop
  | .addItem newId _ _ _ _, m => m.lookup newId = none
  | .markReturned _, _ => True

/-- The expression item.createdAt?.seconds || 0 of the myItems
comparator (App.jsx 1018): a pending (absent) creation time reads as
zero. -/
def sortKeySeconds (it : Item) : Nat :=
  match it.createdAt with
  | some s => s
  | none => 0

/-- The myItems sort comparator (App.jsx 1015-1018), literally:
missing items first, then descending by creation seconds. -/
def cmpItems (a b : Item) : Int :=
  if a.status = .missing ∧ b.status ≠ .missing then -1
  else if a.status ≠ .missing ∧ b.status = .missing then 1
  else (sortKeySeconds b : Int) - (sortKeySeconds a : Int)

/-- The may-stay-before preorder induced by the comparator on snapshot
entries: Array.prototype.sort with a consistent comparator returns the
stable sort by exactly this relation. -/
def pairLe (p q : String × Item) : Prop := cmpItems p.2 q.2 ≤ 0

instance : DecidableRel pairLe :=
  fun p q => inferInstanceAs (Decidable (cmpItems p.2 q.2 ≤ 0))

/-- Array.prototype.sort (stable since ES2019), embedded as the stable
insertion sort by the comparator preorder. -/
def jsSortItems (l : List (String × Item)) : List (String × Item) :=
  List.insertionSort pairLe l

/-- myItems (App.jsx 1014-1019): Object.values of the items snapshot
(snapshot order), filtered to the current principal, sorted by the
comparator. -/
def myItems (userId : String) (snapshot : List (String × Item)) :
    List (String × Item) :=
  jsSortItems (snapshot.filter fun p => p.2.ownerId == userId)

/-- Rank of the first comparator criterion: missing sorts as 0,
anything else as 1. -/
def statusRank (it : Item) : Nat := if it.status = .missing then 0 else 1

/-- Result of the remote user_profile point read issued by
fetchProfileByUid: document found, document absent, or the read fails
(permission denial, network, expired auth). -/
inductive FetchResult where
  | found (p : Profile)
  | absent
  | storeError
deriving DecidableEq

/-- fetchProfileByUid (App.jsx 103-114): returns the document data when
the read succeeds and the document exists; a failing read is caught,
logged to the console, and collapses to null exactly like an absent
document.  No error is re-raised. -/
def fetchProfileByUid : FetchResult → Option Profile
  | .found p => some p
  | .absent => none
  | .storeError => none

/-- The four throw sites of handleScanResult (App.jsx 894-921). -/
inductive ScanErr where
  | notInitialized
  | itemNotFound (itemId : String)
  | selfScan
  | ownerUnavailable
deriving DecidableEq

/-- The literal Error message thrown at each site. -/
def ScanErr.message : ScanErr → String
  | .notInitialized => "App not initialized."
  | .itemNotFound itemId => "No item found with ID: " ++ itemId
  | .selfScan => "This is your own registered item."
  | .ownerUnavailable => "Item found, but owner profile is missing or inaccessible."

/-- The slice of App component state that handleScanResult reads and
writes: a readiness flag for db and userId, the current principal, the
local items and users snapshots, the current selection and view. -/
structure ScanState where
  initialized : Bool
  userId : String
  items : List (String × Item)
  users : List (String × Profile)
  selectedItem : Option (String × Item)
  selectedUser : Option Profile
  view : AppView
deriving DecidableEq

/-- What one call of handleScanResult returns to its caller: either the
resolved item or a thrown error. -/
inductive ScanRes where
  | resolved (itemId : String) (item : Item)
  | failed (e : ScanErr)
deriving DecidableEq

/-- A scan resolution outcome: the updated component state, the value
or error handed to the caller, and the list of user ids for which a
remote profile point read was issued. -/
structure ScanOutcome where
  state : ScanState
  result : ScanRes
  fetchedUids : List String
deriving DecidableEq

/-- handleScanResult (App.jsx 894-921).  The registry lookup
items[itemId] is embedded as a lookup of the snapshot own keys; the
behaviour of the raw JavaScript property read on the names inherited
from Object.prototype is captured separately by jsGetItem below.  On a
cache miss for the owner profile a remote point read is recorded in
fetchedUids and its result goes through fetchProfileByUid. -/
def handleScanResult (remote : String → FetchResult) (st : ScanState)
    (itemId : String) : ScanOutcome :=
  if st.initialized then
    match st.items.lookup itemId with
    | none => ⟨st, .failed (.itemNotFound itemId), []⟩
    | some item =>
      if item.ownerId = st.userId then
        ⟨{ st with selectedItem := some (itemId, item), view := .itemQR },
         .failed .selfScan, []⟩
      else
        match st.users.lookup item.ownerId with
        | some p =>
            ⟨{ st with
                selectedItem := some (itemId, item)
                selectedUser := some p
                view := .userProfile },
             .resolved itemId item, []⟩
        | none =>
            match fetchProfileByUid (remote item.ownerId) with
            | some p =>
                ⟨{ st with
                    selectedItem := some (itemId, item)
                    selectedUser := some p
                    view := .userProfile },
                 .resolved itemId item, [item.ownerId]⟩
            | none => ⟨st, .failed .ownerUnavailable, [item.ownerId]⟩
  else ⟨st, .failed .notInitialized, []⟩

/-- The whitespace set stripped by JavaScript String.prototype.trim:
the WhiteSpace and LineTerminator code points. -/
def jsWhitespaceChar (c : Char) : Bool :=
  [' ', '\t', '\n', '\r', '\u000B', '\u000C', '\u00A0', '\uFEFF',
   '\u1680', '\u2000', '\u2001', '\u2002', '\u2003', '\u2004', '\u2005',
   '\u2006', '\u2007', '\u2008', '\u2009', '\u200A', '\u2028', '\u2029',
   '\u202F', '\u205F', '\u3000'].contains c

/-- Drop trailing whitespace from a character list. -/
def rdropWs : List Char → List Char
  | [] => []
  | c :: cs =>
    match rdropWs cs with
    | [] => if jsWhitespaceChar c then [] else [c]
    | r => c :: r

/-- JavaScript String.prototype.trim: strip leading and trailing
whitespace. -/
def jsTrim (s : String) : String :=
  String.mk (rdropWs (s.data.dropWhile jsWhitespaceChar))

/-- handleSubmit of ScanView (App.jsx 475-483): handleScanResult runs
on the trimmed id only when the trimmed id is nonempty; on an input
that is empty after trimming nothing is submitted and no store is
touched. -/
def scanSubmit (remote : String → FetchResult) (st : ScanState)
    (raw : String) : Option ScanOutcome :=
  if jsTrim raw = "" then none
  else some (handleScanResult remote st (jsTrim raw))

/-- The remote profile point reads a submission performs. -/
def scanSubmitReads (remote : String → FetchResult) (st : ScanState)
    (raw : String) : List String :=
  match scanSubmit remote st raw with
  | some o => o.fetchedUids
  | none => []

/-- Result of the raw JavaScript property read items[itemId] on the
plain object holding the snapshot: an own key yields its item; a key
that names a property inherited from Object.prototype still yields a
truthy value; only the remaining keys read as undefined. -/
inductive JsLookup where
  | found (it : Item)
  | protoProperty
  | absentKey
deriving DecidableEq

/-- The property names every plain JavaScript object literal inherits
from Object.prototype; each reads as a truthy value (a method, or the
prototype object itself for the dunder proto accessor). -/
def objectProtoKeys : List String :=
  ["constructor", "hasOwnProperty", "isPrototypeOf", "propertyIsEnumerable",
   "toLocaleString", "toString", "valueOf", "__proto__",
   "__defineGetter__", "__defineSetter__", "__lookupGetter__",
   "__lookupSetter__"]

/-- Faithful embedding of the property read items[itemId] performed at
App.jsx 897, including prototype-chain lookup.  The falsiness guard
if (!item) at App.jsx 899 fires exactly on the absentKey case. -/
def jsGetItem (m : List (String × Item)) (k : String) : JsLookup :=
  match m.lookup k with
  | some it => .found it
  | none => if objectProtoKeys.contains k then .protoProperty else .absentKey

/-- The slice of App state driving the per-chat message subscription:
the db handle flag, the view, the selected chat id, and the currently
subscribed message stream (none when no subscription is active). -/
structure CState where
  db : Bool
  view : AppView
  selectedChat : Option String
  msgSub : Option String
deriving DecidableEq

/-- The navigation events that touch the chatting state: the back
button of ChatView (App.jsx 618, setView user-profile only),
handleStartChat selecting a chat and entering the chat view
(App.jsx 940-941), and handleLogout clearing the selection
(App.jsx 828-835). -/
inductive NavEv where
  | backToProfile
  | openChat (chatId : String)
  | signOut
deriving DecidableEq

/-- Pure state-field effect of a navigation event. -/
def applyNav (s : CState) : NavEv → CState
  | .backToProfile => { s with view := .userProfile }
  | .openChat c => { s with view := .chat, selectedChat := some c }
  | .signOut => { s with view := .login, selectedChat := none }

/-- The React effect of App.jsx 994-1010 after a render: its dependency
list is exactly the selected chat id, so the subscription is cleaned up
and re-established only when that id changes; the effect body
subscribes only when a chat is selected and db is present. -/
def msgEffect (old s2 : CState) : CState :=
  if s2.selectedChat = old.selectedChat then { s2 with msgSub := old.msgSub }
  else { s2 with msgSub := if s2.db then s2.selectedChat else none }

/-- One controller step: apply the event, then run the effect
reconciliation against the previous state. -/
def stepNav (s : CState) (e : NavEv) : CState := msgEffect s (applyNav s e)

/-- The slice of App state around handleMarkReturned: the items
snapshot, the selection, the view, and the pending confirmation dialog
(the modal opened at App.jsx 974 with its captured item). -/
structure MState where
  db : Bool
  items : List (String × Item)
  selectedItem : Option (String × Item)
  view : AppView
  pendingConfirm : Option (String × Item)
deriving DecidableEq

/-- handleMarkReturned (App.jsx 971-991): guarded on a selected item
and a db handle, it only opens the confirmation dialog for the selected
item.  It issues no store write. -/
def handleMarkReturned (s : MState) : MState :=
  if s.selectedItem = none ∨ s.db = false then s
  else { s with pendingConfirm := s.selectedItem }

/-- The onConfirm closure of the dialog (App.jsx 978-988): close the
dialog, merge-write status returned at the captured item id, and set
the status of the selected item to returned.  With no dialog open there is
nothing to confirm and nothing happens. -/
def confirmReturn (s : MState) : MState :=
  match s.pendingConfirm with
  | none => s
  | some (id, _) =>
      { s with
        pendingConfirm := none
        items := upsertWith s.items id fun old =>
          match old with
          | some it => { it with status := .returned }
          | none => ⟨"", "", "", .returned, none⟩
        selectedItem := s.selectedItem.map fun p =>
          (p.1, { p.2 with status := .returned }) }

/-- The onCancel closure of the dialog (App.jsx 989): close the dialog
and nothing else. -/
def cancelReturn (s : MState) : MState := { s with pendingConfirm := none }

/-- The user interactions around the confirmation gate. -/
inductive MEv where
  | request
  | confirm
  | cancel
deriving DecidableEq

/-- Dispatch of a gate interaction. -/
def MEv.apply : MEv → MState → MState
  | .request, s => handleMarkReturned s
  | .confirm, s => confirmReturn s
  | .cancel, s => cancelReturn s

/-- Run a sequence of gate interactions. -/
def runMEvents (l : List MEv) (s : MState) : MState :=
  l.foldl (fun s e => e.apply s) s

/-- A concrete already-returned item. -/
def retDemoItem : Item := ⟨"Bottle", "", "u9", .returned, some 3⟩

/-- A one-document items collection holding the returned item. -/
def retDemoStore : List (String × Item) := [("r1", retDemoItem)]

/-- A concrete missing item whose server timestamp has not arrived. -/
def itemNoTs : Item := ⟨"keys", "", "u1", .missing, none⟩

/-- A concrete missing item timestamped at second zero. -/
def itemTsZero : Item := ⟨"wallet", "", "u1", .missing, some 0⟩

/-- A concrete missing item owned by another principal. -/
def ownerItem : Item := ⟨"Backpack", "", "owner-2", .missing, some 5⟩

/-- A scan session of principal u1 whose local snapshots hold one item
of owner-2 and no cached profiles. -/
def stOwner : ScanState := ⟨true, "u1", [("i1", ownerItem)], [], none, none, .scanView⟩

/-- A concrete item owned by the scanning principal u1. -/
def selfItem : Item := ⟨"Laptop", "", "u1", .missing, some 9⟩

/-- A scan session of principal u1 holding an item u1 owns. -/
def stSelf : ScanState := ⟨true, "u1", [("i1", selfItem)], [], none, none, .scanView⟩

/-- A one-document registry snapshot for the prototype-key analysis. -/
def protoDemoRegistry : List (String × Item) := [("item-1", ownerItem)]

/-- A session inside the chat view with an active message
subscription for the selected chat. -/
def chatState : CState := ⟨true, .chat, some "u1_u2", some "u1_u2"⟩

/-- A session on the owner view with a selected missing item and no
confirmation dialog open. -/
def mDemo : MState := ⟨true, [("i1", ownerItem)], some ("i1", ownerItem), .userProfile, none⟩

end RR

namespace RR

theorem sortedUids_comm (a b : String) : sortedUids a b = sortedUids b a := by
  unfold sortedUids
  rcases le_or_lt a b with h | h
  · rcases eq_or_lt_of_le h with rfl | h2
    · simp
    · rw [if_pos h, if_neg (not_le.mpr h2)]
  · rw [if_neg (not_le.mpr h), if_pos h.le]

theorem getChatDocId_comm (a b : String) : getChatDocId a b = getChatDocId b a := by
  unfold getChatDocId
  rw [sortedUids_comm]

/-- C1: the chat identifier is a symmetric (hence unordered-pair)
function of the two principals, and contact initiation is a keyed
merge upsert at that identifier, so initiating from either side, in
either order, touches no other document and leaves exactly one chat
record for the pair at the shared id. -/
theorem chat_initiation_converges (a b itm1 itm2 : String) (t1 t2 : Nat)
    (chats : ChatStore) :
    getChatDocId a b = getChatDocId b a ∧
    (∀ k, k ≠ getChatDocId a b →
      handleStartChat b a itm2 t2 (handleStartChat a b itm1 t1 chats) k = chats k) ∧
    handleStartChat b a itm2 t2 (handleStartChat a b itm1 t1 chats)
        (getChatDocId a b) =
      some { participants := sortedUids a b, itemId := itm2, lastMessageAt := t2 } := by
  have hid : getChatDocId b a = getChatDocId a b := (getChatDocId_comm a b).symm
  have hsort : sortedUids b a = sortedUids a b := (sortedUids_comm a b).symm
  refine ⟨getChatDocId_comm a b, ?_, ?_⟩
  · intro k hk
    simp [handleStartChat, hid, hk]
  · simp [handleStartChat, hid, hsort]

/-- Witness for C1 at principals u1 and u2 and an untouched key. -/
theorem chat_initiation_converges_witness :
    getChatDocId "u1" "u2" = getChatDocId "u2" "u1" ∧
    handleStartChat "u2" "u1" "itemB" 7
        (handleStartChat "u1" "u2" "itemA" 3 (fun _ => none)) "zzz" =
      (fun _ => (none : Option Chat)) "zzz" := by
  have hval : getChatDocId "u1" "u2" = "u1_u2" := by
    unfold getChatDocId sortedUids
    rw [if_pos (by rw [String.le_iff_toList_le]; decide)]
    rfl
  refine ⟨(chat_initiation_converges "u1" "u2" "itemA" "itemB" 3 7 (fun _ => none)).1,
    (chat_initiation_converges "u1" "u2" "itemA" "itemB" 3 7 (fun _ => none)).2.1
      "zzz" ?_⟩
  rw [hval]
  decide

theorem lookup_upsertWith_self (m : List (String × Item)) (k : String)
    (f : Option Item → Item) :
    (upsertWith m k f).lookup k = some (f (m.lookup k)) := by
  induction m with
  | nil => simp [upsertWith]
  | cons hd tl ih =>
    obtain ⟨k0, v0⟩ := hd
    by_cases h : k0 = k
    · subst h
      simp [upsertWith]
    · simp [upsertWith, h, List.lookup, beq_eq_false_iff_ne.mpr (Ne.symm h), ih]

theorem lookup_upsertWith_ne (m : List (String × Item)) (k k2 : String)
    (f : Option Item → Item) (h : k2 ≠ k) :
    (upsertWith m k f).lookup k2 = m.lookup k2 := by
  induction m with
  | nil => simp [upsertWith, List.lookup, beq_eq_false_iff_ne.mpr h]
  | cons hd tl ih =>
    obtain ⟨k0, v0⟩ := hd
    by_cases h0 : k0 = k
    · subst h0
      simp [upsertWith, List.lookup, beq_eq_false_iff_ne.mpr h]
    · by_cases hk2 : k2 = k0
      · subst hk2
        simp [upsertWith, h0, List.lookup]
      · simp [upsertWith, h0, List.lookup, beq_eq_false_iff_ne.mpr hk2, ih]

/-- C2: the status field only moves missing to returned.  Neither of
the two registry writes the program has can turn the status of a
returned item back to missing (item creation lands on a fresh id, the
confirmation write sets returned), and re-marking an already-returned
item is a complete no-op on that document. -/
theorem returned_status_is_final (op : RegistryOp) (m : List (String × Item))
    (id : String) (it : Item) (hf : op.freshFor m)
    (hid : m.lookup id = some it) (hret : it.status = .returned) :
    (∃ it2, (op.apply m).lookup id = some it2 ∧ it2.status = .returned) ∧
      ((RegistryOp.markReturned id).apply m).lookup id = some it := by
  have hnoop : { it with status := ItemStatus.returned } = it := by
    obtain ⟨n, d, o, s, c⟩ := it
    cases hret
    rfl
  constructor
  · cases op with
    | addItem newId n d o ts =>
      simp only [RegistryOp.freshFor] at hf
      have hne : id ≠ newId := by
        intro hEq
        rw [hEq] at hid
        rw [hid] at hf
        exact Option.noConfusion hf
      refine ⟨it, ?_, hret⟩
      simp [RegistryOp.apply, List.lookup, beq_eq_false_iff_ne.mpr hne, hid]
    | markReturned tid =>
      by_cases h : tid = id
      · subst h
        refine ⟨{ it with status := .returned }, ?_, rfl⟩
        simp [RegistryOp.apply, lookup_upsertWith_self, hid]
      · refine ⟨it, ?_, hret⟩
        simp [RegistryOp.apply, lookup_upsertWith_ne _ _ _ _ (Ne.symm h), hid]
  · simp [RegistryOp.apply, lookup_upsertWith_self, hid, hnoop]

/-- Witness for C2: re-marking the already-returned demo item. -/
theorem returned_status_is_final_witness :
    (∃ it2, ((RegistryOp.markReturned "r1").apply retDemoStore).lookup "r1" =
        some it2 ∧ it2.status = .returned) ∧
      ((RegistryOp.markReturned "r1").apply retDemoStore).lookup "r1" =
        some retDemoItem :=
  returned_status_is_final (.markReturned "r1") retDemoStore "r1" retDemoItem
    trivial (by decide) rfl

theorem pairLe_iff (p q : String × Item) :
    pairLe p q ↔ (statusRank p.2 < statusRank q.2 ∨
      (statusRank p.2 = statusRank q.2 ∧
        sortKeySeconds q.2 ≤ sortKeySeconds p.2)) := by
  unfold pairLe cmpItems statusRank
  by_cases ha : p.2.status = ItemStatus.missing <;>
    by_cases hb : q.2.status = ItemStatus.missing <;>
      simp [ha, hb]

theorem pairLe_total (p q : String × Item) : pairLe p q ∨ pairLe q p := by
  rw [pairLe_iff, pairLe_iff]
  omega

theorem pairLe_trans (p q r : String × Item) :
    pairLe p q → pairLe q r → pairLe p r := by
  intro h1 h2
  rw [pairLe_iff] at h1 h2 ⊢
  omega

theorem myItems_pairwise (u : String) (snap : List (String × Item)) :
    List.Pairwise pairLe (myItems u snap) := by
  haveI : IsTotal (String × Item) pairLe := ⟨pairLe_total⟩
  haveI : IsTrans (String × Item) pairLe := ⟨pairLe_trans⟩
  exact List.sorted_insertionSort pairLe (snap.filter fun p => p.2.ownerId == u)

theorem statusRank_returned_iff (it : Item) :
    statusRank it = 1 ↔ it.status = ItemStatus.returned := by
  unfold statusRank
  cases h : it.status <;> simp [h]

theorem statusRank_le_one (it : Item) : statusRank it ≤ 1 := by
  unfold statusRank
  split <;> omega

/-- C3: for every items snapshot and current principal, the derived
myItems list is a permutation of exactly the principal-owned snapshot
entries, and it is ordered so that no returned item ever precedes a
missing one and, within equal status, creation seconds are
nonincreasing (most recent first; a pending timestamp reads as 0). -/
theorem myItems_owned_and_ordered (u : String) (snap : List (String × Item)) :
    List.Perm (myItems u snap) (snap.filter fun p => p.2.ownerId == u) ∧
    List.Pairwise (fun p q : String × Item =>
      (p.2.status = ItemStatus.returned → q.2.status = ItemStatus.returned) ∧
      (p.2.status = q.2.status → sortKeySeconds q.2 ≤ sortKeySeconds p.2))
      (myItems u snap) := by
  constructor
  · exact List.perm_insertionSort pairLe (snap.filter fun p => p.2.ownerId == u)
  · refine (myItems_pairwise u snap).imp ?_
    intro p q h
    rw [pairLe_iff] at h
    constructor
    · intro hpret
      have hp1 : statusRank p.2 = 1 := (statusRank_returned_iff p.2).mpr hpret
      have hq1 : statusRank q.2 ≤ 1 := statusRank_le_one q.2
      exact (statusRank_returned_iff q.2).mp (by omega)
    · intro hsame
      have hrk : statusRank p.2 = statusRank q.2 := by
        unfold statusRank
        rw [hsame]
      omega

/-- C10 counterexample: both demo items are missing and owned by u1;
the item with a pending (absent) createdAt keeps its snapshot position
in front of the item timestamped at second 0 (stable tie at sort key
0), so an untimestamped item does not sort after every timestamped
item of its status group. -/
theorem pending_created_at_precedes_zero_timestamp :
    myItems "u1" [("a", itemNoTs), ("b", itemTsZero)] =
      [("a", itemNoTs), ("b", itemTsZero)] ∧
    itemNoTs.createdAt = none ∧ itemTsZero.createdAt = some 0 ∧
    itemNoTs.status = itemTsZero.status := by
  refine ⟨?_, rfl, rfl, rfl⟩
  decide

/-- C10 amended: an item whose createdAt has not arrived is treated as
having creation time 0, the comparator is total (defined and
one-sidedly nonpositive for every pair, regardless of missing fields),
and in the derived ordering an untimestamped item never precedes a
same-status item with a positive timestamp; it can tie with, and stay
in front of, a same-status item timestamped exactly 0 (stable sort). -/
theorem pending_created_at_reads_zero :
    (∀ it : Item, it.createdAt = none → sortKeySeconds it = 0) ∧
    (∀ a b : Item, cmpItems a b ≤ 0 ∨ cmpItems b a ≤ 0) ∧
    (∀ (u : String) (snap : List (String × Item)), List.Pairwise
      (fun p q : String × Item =>
        p.2.status = q.2.status → 0 < sortKeySeconds q.2 →
          p.2.createdAt ≠ none)
      (myItems u snap)) := by
  refine ⟨?_, ?_, ?_⟩
  · intro it h
    unfold sortKeySeconds
    rw [h]
  · intro a b
    exact pairLe_total ("", a) ("", b)
  · intro u snap
    refine (myItems_pairwise u snap).imp ?_
    intro p q h hsame hpos hnone
    rw [pairLe_iff] at h
    have hrk : statusRank p.2 = statusRank q.2 := by
      unfold statusRank
      rw [hsame]
    have hzero : sortKeySeconds p.2 = 0 := by
      unfold sortKeySeconds
      rw [hnone]
    omega

/-- Witness for the C10 amendment at the demo items. -/
theorem pending_created_at_reads_zero_witness :
    sortKeySeconds itemNoTs = 0 ∧
    (cmpItems itemNoTs itemTsZero ≤ 0 ∨ cmpItems itemTsZero itemNoTs ≤ 0) :=
  ⟨pending_created_at_reads_zero.1 itemNoTs rfl,
   pending_created_at_reads_zero.2.1 itemNoTs itemTsZero⟩

/-- C4 (code defect evidence): the string toString is not a key of the
demo registry snapshot, yet the JavaScript property read items[id]
yields the truthy method inherited from Object.prototype, so the
falsiness guard at App.jsx 899 does not fire and the ItemNotFound
throw - the only site that reports the submitted identifier - is
skipped.  Resolution then continues down the owner path with an
undefined ownerId instead of failing with ItemNotFound. -/
theorem scan_proto_key_passes_guard :
    (protoDemoRegistry.map Prod.fst).contains "toString" = false ∧
    jsGetItem protoDemoRegistry "toString" = JsLookup.protoProperty := by
  decide

/-- C5: a scan that resolves to an item owned by the scanning
principal selects that item, navigates to the item-qr view (the owner
QR view, not the user-profile owner view), and still throws the
informational self-scan error, which is a different error from every
ItemNotFound error. -/
theorem self_scan_redirects (remote : String → FetchResult) (st : ScanState)
    (itemId : String) (item : Item)
    (hinit : st.initialized = true)
    (hlook : st.items.lookup itemId = some item)
    (hown : item.ownerId = st.userId) :
    (handleScanResult remote st itemId).state.selectedItem = some (itemId, item) ∧
    (handleScanResult remote st itemId).state.view = AppView.itemQR ∧
    (handleScanResult remote st itemId).result =
      ScanRes.failed ScanErr.selfScan ∧
    ScanErr.selfScan.message = "This is your own registered item." := by
  simp [handleScanResult, hinit, hlook, hown, ScanErr.message]

/-- Witness for C5: principal u1 scanning their own item. -/
theorem self_scan_redirects_witness :
    (handleScanResult (fun _ => FetchResult.absent) stSelf "i1").state.selectedItem =
        some ("i1", selfItem) ∧
    (handleScanResult (fun _ => FetchResult.absent) stSelf "i1").state.view =
        AppView.itemQR ∧
    (handleScanResult (fun _ => FetchResult.absent) stSelf "i1").result =
        ScanRes.failed ScanErr.selfScan ∧
    ScanErr.selfScan.message = "This is your own registered item." :=
  self_scan_redirects (fun _ => FetchResult.absent) stSelf "i1" selfItem
    rfl (by decide) rfl

/-- C6 counterexample: with the owner profile not cached, a scan whose
remote point read fails with a store error produces exactly the same
outcome as a scan whose remote point read finds no document - the
owner-unavailable failure - because fetchProfileByUid catches the
error and returns null.  No distinct recoverable store-unavailable
condition reaches the controller. -/
theorem store_error_equals_absent_profile :
    handleScanResult (fun _ => FetchResult.storeError) stOwner "i1" =
      handleScanResult (fun _ => FetchResult.absent) stOwner "i1" ∧
    (handleScanResult (fun _ => FetchResult.storeError) stOwner "i1").result =
      ScanRes.failed ScanErr.ownerUnavailable := by
  decide

/-- C6 amended: whenever the owner profile is absent from the cache
and the remote point read fails with a store error, the error is
caught inside fetchProfileByUid and resolution reports the same
owner-profile-unavailable failure as a genuinely absent profile; the
failure is not silently dropped, but it is indistinguishable from
not-found and no separate store-unavailable condition exists. -/
theorem store_error_collapses_to_owner_unavailable (st : ScanState)
    (itemId : String) (item : Item)
    (hinit : st.initialized = true)
    (hlook : st.items.lookup itemId = some item)
    (hown : item.ownerId ≠ st.userId)
    (hcache : st.users.lookup item.ownerId = none) :
    handleScanResult (fun _ => FetchResult.storeError) st itemId =
      handleScanResult (fun _ => FetchResult.absent) st itemId ∧
    (handleScanResult (fun _ => FetchResult.storeError) st itemId).result =
      ScanRes.failed ScanErr.ownerUnavailable ∧
    (handleScanResult (fun _ => FetchResult.storeError) st itemId).fetchedUids =
      [item.ownerId] := by
  simp [handleScanResult, hinit, hlook, hown, hcache, fetchProfileByUid]

/-- Witness for the C6 amendment at the demo scan session. -/
theorem store_error_collapses_witness :
    handleScanResult (fun _ => FetchResult.storeError) stOwner "i1" =
      handleScanResult (fun _ => FetchResult.absent) stOwner "i1" ∧
    (handleScanResult (fun _ => FetchResult.storeError) stOwner "i1").result =
      ScanRes.failed ScanErr.ownerUnavailable ∧
    (handleScanResult (fun _ => FetchResult.storeError) stOwner "i1").fetchedUids =
      [ownerItem.ownerId] :=
  store_error_collapses_to_owner_unavailable stOwner "i1" ownerItem
    rfl (by decide) (by decide) rfl

theorem dropWhile_self_idem (p : Char → Bool) (l : List Char) :
    (l.dropWhile p).dropWhile p = l.dropWhile p := by
  induction l with
  | nil => rfl
  | cons c cs ih =>
    by_cases h : p c
    · simp [List.dropWhile_cons, h, ih]
    · simp [List.dropWhile_cons, h]

theorem dropWhile_length_le (p : Char → Bool) (l : List Char) :
    (l.dropWhile p).length ≤ l.length := by
  induction l with
  | nil => simp
  | cons c cs ih =>
    by_cases h : p c
    · simp only [List.dropWhile_cons, h, if_true]
      exact le_trans ih (Nat.le_succ _)
    · simp [List.dropWhile_cons, h]

theorem rdropWs_head (c : Char) (cs : List Char) :
    rdropWs (c :: cs) = [] ∨ ∃ r, rdropWs (c :: cs) = c :: r := by
  rcases h : rdropWs cs with _ | ⟨d, ds⟩
  · by_cases hc : jsWhitespaceChar c
    · left
      simp [rdropWs, h, hc]
    · right
      exact ⟨[], by simp [rdropWs, h, hc]⟩
  · right
    exact ⟨d :: ds, by simp [rdropWs, h]⟩

theorem rdropWs_cons_of_cons (c d : Char) (l ds : List Char)
    (h : rdropWs l = d :: ds) : rdropWs (c :: l) = c :: d :: ds := by
  simp [rdropWs, h]

theorem rdropWs_idem (l : List Char) : rdropWs (rdropWs l) = rdropWs l := by
  induction l with
  | nil => rfl
  | cons c cs ih =>
    rcases h : rdropWs cs with _ | ⟨d, ds⟩
    · by_cases hc : jsWhitespaceChar c
      · simp [rdropWs, h, hc]
      · simp [rdropWs, h, hc]
    · rw [h] at ih
      rw [rdropWs_cons_of_cons c d cs ds h]
      exact rdropWs_cons_of_cons c d (d :: ds) ds ih

theorem dropWhile_rdropWs (l : List Char)
    (h : l.dropWhile jsWhitespaceChar = l) :
    (rdropWs l).dropWhile jsWhitespaceChar = rdropWs l := by
  cases l with
  | nil => rfl
  | cons c cs =>
    have hc : jsWhitespaceChar c = false := by
      by_contra hx
      rw [Bool.not_eq_false] at hx
      rw [List.dropWhile_cons, if_pos hx] at h
      have hlen := congrArg List.length h
      have hle := dropWhile_length_le jsWhitespaceChar cs
      simp at hlen
      omega
    rcases rdropWs_head c cs with h0 | ⟨r, hr⟩
    · rw [h0]
      rfl
    · rw [hr, List.dropWhile_cons, if_neg (by simp [hc])]

theorem jsTrim_idem (s : String) : jsTrim (jsTrim s) = jsTrim s := by
  unfold jsTrim
  congr 1
  show rdropWs (List.dropWhile jsWhitespaceChar
      (rdropWs (List.dropWhile jsWhitespaceChar s.data))) = _
  rw [dropWhile_rdropWs _ (dropWhile_self_idem _ _), rdropWs_idem]

/-- C7: a scan submission first trims the entered identifier, so any
input resolves exactly as its trimmed form does; and an input that is
empty after trimming is rejected locally - nothing is submitted, no
resolution outcome is produced and no profile-store point read is
issued. -/
theorem scan_trims_and_rejects_empty (remote : String → FetchResult)
    (st : ScanState) (raw : String) :
    scanSubmit remote st raw = scanSubmit remote st (jsTrim raw) ∧
    (jsTrim raw = "" →
      scanSubmit remote st raw = none ∧
      scanSubmitReads remote st raw = []) := by
  constructor
  · unfold scanSubmit
    rw [jsTrim_idem]
  · intro h
    constructor
    · unfold scanSubmit
      rw [if_pos h]
    · unfold scanSubmitReads scanSubmit
      rw [if_pos h]

/-- Witness for C7: a whitespace-only input produces no submission and
no store read. -/
theorem scan_trims_and_rejects_empty_witness :
    scanSubmit (fun _ => FetchResult.absent) stOwner "   " = none ∧
    scanSubmitReads (fun _ => FetchResult.absent) stOwner "   " = [] :=
  (scan_trims_and_rejects_empty (fun _ => FetchResult.absent) stOwner "   ").2
    (by decide)

/-- C8 counterexample: from the chat view with an active message
subscription, pressing back (setView user-profile only) leaves the
chatting state but the effect keyed on the selected chat id does not
re-run, so the message subscription stays active for the no longer
displayed chat view. -/
theorem back_nav_keeps_message_sub :
    (stepNav chatState NavEv.backToProfile).view = AppView.userProfile ∧
    (stepNav chatState NavEv.backToProfile).msgSub = some "u1_u2" := by
  decide

/-- C8 amended: the message subscription follows the selected chat id,
not the displayed view: it is replaced when a different chat is
selected and torn down when the selection is cleared (sign-out), while
navigating back to the owner view changes neither the selection nor
the subscription. -/
theorem message_sub_follows_selected_chat :
    (∀ s : CState, (stepNav s NavEv.backToProfile).msgSub = s.msgSub ∧
      (stepNav s NavEv.backToProfile).selectedChat = s.selectedChat) ∧
    (∀ (s : CState) (e : NavEv),
      s.msgSub = (if s.db then s.selectedChat else none) →
      (stepNav s e).msgSub =
        (if (stepNav s e).db then (stepNav s e).selectedChat else none)) := by
  constructor
  · intro s
    simp [stepNav, applyNav, msgEffect]
  · intro s e h
    cases e with
    | backToProfile => simp [stepNav, applyNav, msgEffect, h]
    | openChat c =>
        simp only [stepNav, applyNav, msgEffect]
        split
        · next heq => simp [h, ← heq]
        · simp
    | signOut =>
        simp only [stepNav, applyNav, msgEffect]
        split
        · next heq => simp [h, ← heq]
        · simp

/-- Witness for the C8 amendment: sign-out from the chat session tears
the subscription down. -/
theorem message_sub_follows_selected_chat_witness :
    (stepNav chatState NavEv.signOut).msgSub =
      (if (stepNav chatState NavEv.signOut).db then
        (stepNav chatState NavEv.signOut).selectedChat else none) :=
  message_sub_follows_selected_chat.2 chatState NavEv.signOut (by decide)

/-- C9: the status write happens only on the confirm path of the
confirmation dialog: any interaction sequence that never confirms
leaves the items collection untouched; cancel only closes the dialog,
changing neither the items, the selection, nor the view; confirming
with no dialog open does nothing; and confirming an open dialog issues
exactly the merge write of status returned at the captured item id. -/
theorem mark_returned_requires_confirmation :
    (∀ (l : List MEv) (s : MState), MEv.confirm ∉ l →
      (runMEvents l s).items = s.items) ∧
    (∀ s : MState, (cancelReturn s).items = s.items ∧
      (cancelReturn s).selectedItem = s.selectedItem ∧
      (cancelReturn s).view = s.view ∧
      (cancelReturn s).pendingConfirm = none) ∧
    (∀ s : MState, s.pendingConfirm = none → MEv.apply MEv.confirm s = s) ∧
    (∀ (s : MState) (id : String) (it : Item),
      s.pendingConfirm = some (id, it) →
      ((MEv.apply MEv.confirm s).items).lookup id =
        some (match s.items.lookup id with
              | some old => { old with status := ItemStatus.returned }
              | none => ⟨"", "", "", ItemStatus.returned, none⟩)) := by
  refine ⟨?_, ?_, ?_, ?_⟩
  · intro l
    induction l with
    | nil => intro s _; rfl
    | cons e es ih =>
        intro s hl
        rw [List.mem_cons] at hl
        push_neg at hl
        obtain ⟨he, hes⟩ := hl
        have hstep : (MEv.apply e s).items = s.items := by
          cases e with
          | request =>
              simp only [MEv.apply, handleMarkReturned]
              split <;> rfl
          | confirm => exact absurd rfl (Ne.symm he)
          | cancel => rfl
        calc (runMEvents (e :: es) s).items
            = (runMEvents es (MEv.apply e s)).items := rfl
          _ = (MEv.apply e s).items := ih (MEv.apply e s) hes
          _ = s.items := hstep
  · intro s
    exact ⟨rfl, rfl, rfl, rfl⟩
  · intro s h
    simp [MEv.apply, confirmReturn, h]
  · intro s id it h
    simp [MEv.apply, confirmReturn, h, lookup_upsertWith_self]

/-- Witness for C9: requesting and then cancelling leaves the demo
items collection unchanged. -/
theorem mark_returned_requires_confirmation_witness :
    (runMEvents [MEv.request, MEv.cancel] mDemo).items = mDemo.items :=
  mark_returned_requires_confirmation.1 [MEv.request, MEv.cancel] mDemo
    (by decide)

end RR
